import Mathlib

/-!
Verification development for the Agilow goal-forge application.

The definitions below are a shallow embedding of the state and operations of
the application: the XP cookie cache (src/lib/cookies.ts), the local XP ledger
(src/services/localXP.ts), the auth-context balance operations and the
session-start reconciliation (src/contexts/AuthContext.tsx), the goal
materialization saga (processComplete4W1H in src/pages/ChatWorkspace.tsx
together with src/services/trello.ts and src/services/ai.ts), the 4W1H
dialogue state machine (handle4W1HResponse in src/pages/ChatWorkspace.tsx),
the gamification achievement store, the soulbound credential contract
(ProofOfCommitmentNFT.sol) and the wallet recovery routine
(src/services/wallet.ts).  External collaborators (the Trello API, the
OpenAI API, Firestore, the ethers library) are modelled by explicit outcome
parameters or function-valued parameters; everything the repository itself
computes is translated directly from its source.
-/

/-! ## XP cookie model (cookies.ts)

The browser cookie slot holding the XP value is modelled as an
`Option Int`: `none` when the cookie is absent, `some v` when the stored
numeric value is `v`.  `parseInt` of a stored value is modelled as the value
itself. -/

/-- `getXPCookie`: reads the cookie; absent or unparsable gives 0, and the
read value is clamped to be non-negative (`Math.max(0, xp)` in source). -/
def getXPCookie (c : Option Int) : Int :=
  match c with
  | none => 0
  | some v => max 0 v

/-- `setXPCookie`: writes the raw value into the cookie slot (no clamping in
the source function itself). -/
def setXPCookie (xp : Int) : Option Int :=
  some xp

/-- `updateXPCookie`: clamps to non-negative and writes
(`Math.max(0, newXP)` in source). -/
def updateXPCookie (newXP : Int) : Option Int :=
  setXPCookie (max 0 newXP)

/-- `incrementXPCookie`: reads the (clamped) current value, adds `amount`,
clamps to non-negative and writes. -/
def incrementXPCookie (c : Option Int) (amount : Int) : Option Int :=
  setXPCookie (max 0 (getXPCookie c + amount))

/-! ## Local XP ledger (localXP.ts) -/

/-- A `LocalXPTransaction` as built by `LocalXPService.awardXP`: the signed
amount, the reason text, the source category and the optional goal and
achievement references (id and timestamp are omitted: no code path reads
them back). -/
structure LocalXPTransaction where
  amount : Int
  reason : String
  source : String
  goalId : Option String := none
  achievementId : Option String := none
deriving Repr, DecidableEq

/-- The state `LocalXPService` operates on: the in-memory transaction list
(appended to by `awardXP`) together with the shared XP cookie slot. -/
structure LocalXPState where
  transactions : List LocalXPTransaction
  cookie : Option Int
deriving Repr, DecidableEq

/-- `LocalXPService.awardXP`: push the transaction onto the log, then set the
cookie to `updateXPCookie(getXPCookie() + amount)`. -/
def awardXP (s : LocalXPState) (t : LocalXPTransaction) : LocalXPState :=
  { transactions := s.transactions ++ [t],
    cookie := updateXPCookie (getXPCookie s.cookie + t.amount) }

/-- Apply a list of award operations in order. -/
def applyAwards (s : LocalXPState) (ts : List LocalXPTransaction) : LocalXPState :=
  ts.foldl awardXP s

/-- The balance the service reports (`getCurrentXP` reads the cookie). -/
def cookieBalance (s : LocalXPState) : Int :=
  getXPCookie s.cookie

/-- The state before any award: empty log, absent cookie. -/
def initialLocalXPState : LocalXPState :=
  { transactions := [], cookie := none }

/-! ## Auth-context balance operations and reconciliation (AuthContext.tsx)

The user profile is modelled by its XP field only: `Option Int`, `none` when
no profile is loaded (in which case the setters are no-ops, matching the
`if (userProfile)` guards in the source). -/

/-- `setUserProfileXP`: if a profile is present, replace its XP with
`Math.max(0, xp)` and write the same sanitized value to the cookie. -/
def setUserProfileXP (profileXP : Option Int) (cookie : Option Int) (xp : Int) :
    Option Int × Option Int :=
  match profileXP with
  | none => (none, cookie)
  | some _ => (some (max 0 xp), updateXPCookie (max 0 xp))

/-- `updateUserProfileXP`: if a profile is present, add `amount` to its XP,
clamp at 0, and write the result to the cookie. -/
def updateUserProfileXP (profileXP : Option Int) (cookie : Option Int) (amount : Int) :
    Option Int × Option Int :=
  match profileXP with
  | none => (none, cookie)
  | some x => (some (max 0 (x + amount)), updateXPCookie (max 0 (x + amount)))

/-- `getCurrentXP`: the profile XP when a profile is loaded, otherwise the
cookie value. -/
def getCurrentXP (profileXP : Option Int) (cookie : Option Int) : Int :=
  match profileXP with
  | some x => x
  | none => getXPCookie cookie

/-- The session-start reconciliation inside the `onAuthStateChange` effect of
`AuthProvider`: read the cookie; if the cookie balance is strictly greater
than the database XP (`profile?.xp || 0`), adopt the cookie value as the
profile XP (leaving the cookie untouched); otherwise, if the database XP is
truthy (non-zero), refresh the cookie from it; otherwise touch nothing.
Returns the resulting (profile XP, cookie) pair. -/
def reconcileOnSessionStart (profileXP : Option Int) (cookie : Option Int) :
    Option Int × Option Int :=
  let cookieXP := getXPCookie cookie
  let dbXP := profileXP.getD 0
  if dbXP < cookieXP then
    (some cookieXP, cookie)
  else if dbXP ≠ 0 then
    (profileXP, updateXPCookie dbXP)
  else
    (profileXP, cookie)

/-! ## Cached-balance write operations (claim about non-negativity)

Every operation of the code that writes the cached XP balance, as one step
relation: the cookie writers from cookies.ts and the profile writers from
AuthContext.tsx (the optimistic update and the rollback both go through
`setUserProfileXP` / `updateUserProfileXP`). -/

/-- One write to the locally cached XP balance. -/
inductive XPWriteOp where
  /-- `updateXPCookie(v)` -/
  | update (v : Int)
  /-- `incrementXPCookie(a)` -/
  | increment (a : Int)
  /-- `updateUserProfileXP(a)` (optimistic delta update) -/
  | optimistic (a : Int)
  /-- `setUserProfileXP(x)` (absolute set, used both optimistically and for
  rollback) -/
  | setAbs (x : Int)
deriving Repr, DecidableEq

/-- The locally cached balances: profile XP state and cookie slot. -/
structure XPCacheState where
  profileXP : Option Int
  cookie : Option Int
deriving Repr, DecidableEq

/-- Apply one cached-balance write, exactly as the corresponding source
function does. -/
def applyXPWrite (s : XPCacheState) (op : XPWriteOp) : XPCacheState :=
  match op with
  | .update v => { s with cookie := updateXPCookie v }
  | .increment a => { s with cookie := incrementXPCookie s.cookie a }
  | .optimistic a =>
    let r := updateUserProfileXP s.profileXP s.cookie a
    { profileXP := r.1, cookie := r.2 }
  | .setAbs x =>
    let r := setUserProfileXP s.profileXP s.cookie x
    { profileXP := r.1, cookie := r.2 }

/-- A stored optional value is non-negative when present. -/
def nonnegOpt : Option Int → Prop
  | none => True
  | some v => 0 ≤ v

instance : DecidablePred nonnegOpt := by
  intro o
  cases o <;> simp [nonnegOpt] <;> infer_instance

/-- Both cached balances are non-negative whenever stored. -/
def xpCacheNonneg (s : XPCacheState) : Prop :=
  nonnegOpt s.profileXP ∧ nonnegOpt s.cookie

/-! ## Board and goal materialization saga
(createGoalBoard / addImageToBHAG in trello.ts, generateGoalImage in ai.ts,
processComplete4W1H in ChatWorkspace.tsx)

Trello itself is an external collaborator: its success or failure on each
call is an explicit boolean of the saga environment, and the board contents
are modelled by the data the code sends to it. -/

/-- A Trello card: name, description, attachment URLs and checklist item
names. -/
structure Card where
  name : String
  desc : String
  attachments : List String := []
  checklist : List String := []
deriving Repr, DecidableEq

/-- A Trello list: name and its cards in order. -/
structure BoardList where
  name : String
  cards : List Card
deriving Repr, DecidableEq

/-- A Trello board: its lists in creation order. -/
structure Board where
  lists : List BoardList
deriving Repr, DecidableEq

/-- One weekly task group of the generated goal structure. -/
structure WeeklyTask where
  weekNumber : Nat
  description : String
  tasks : List String := []
deriving Repr, DecidableEq

/-- The card `createGoalBoard` creates for one week: name `Week N`, the week
description, and one checklist item per task. -/
def weekCard (w : WeeklyTask) : Card :=
  { name := "Week " ++ toString w.weekNumber,
    desc := w.description,
    attachments := [],
    checklist := w.tasks }

/-- `TrelloService.createGoalBoard` board contents: four lists named
To Do / Doing / Done / BHAG, with one card per weekly task group placed in
To Do. -/
def createGoalBoard (weeklyTasks : List WeeklyTask) : Board :=
  { lists :=
      [ { name := "To Do", cards := weeklyTasks.map weekCard },
        { name := "Doing", cards := [] },
        { name := "Done", cards := [] },
        { name := "BHAG", cards := [] } ] }

/-- The fallback artifact URL of `AIService.generateGoalImage`. -/
def placeholderImageUrl : String :=
  "https://via.placeholder.com/400x300/4ADE80/FFFFFF?text=Goal+Vision"

/-- `AIService.generateGoalImage`: when the generation request succeeds its
URL is returned; when the key is missing, the request fails or no URL comes
back, the catch inside the function returns the placeholder URL instead of
throwing.  `fetchOk` is the outcome of the external request. -/
def generateGoalImage (fetchOk : Bool) (generatedUrl : String) : String :=
  if fetchOk then generatedUrl else placeholderImageUrl

/-- Error message of a failed Trello call. -/
def trelloApiErrorMsg : String := "Trello API error"

/-- Error message of `addImageToBHAG` when the BHAG list is missing. -/
def bhagNotFoundMsg : String := "BHAG list not found"

/-- Description text of the vision card created by `addImageToBHAG`. -/
def visionCardDesc : String := "AI-generated vision for your goal"

/-- `TrelloService.addImageToBHAG`: look up the list named BHAG (error when
absent), create a card named `imageName` in it and attach `imageUrl`.  The
Trello calls themselves can fail (`apiOk`), in which case the function
throws. -/
def addImageToBHAG (board : Board) (apiOk : Bool) (imageUrl imageName : String) :
    Except String Board :=
  if apiOk = false then .error trelloApiErrorMsg
  else
    match board.lists.find? (fun l => l.name = "BHAG") with
    | none => .error bhagNotFoundMsg
    | some _ =>
      .ok { lists := board.lists.map (fun l =>
        if l.name = "BHAG" then
          { l with cards := l.cards ++
              [ { name := imageName, desc := visionCardDesc,
                  attachments := [imageUrl], checklist := [] } ] }
        else l) }

/-- Reason text of the creation-reward ledger entry. -/
def bhagCreatedReason : String := "BHAG created"

/-- Source category of the creation-reward ledger entry. -/
def milestoneSource : String := "milestone"

/-- The creation-reward ledger entry `processComplete4W1H` awards. -/
def creationRewardEntry (boardId : String) : LocalXPTransaction :=
  { amount := 100, reason := bhagCreatedReason, source := milestoneSource,
    goalId := some boardId, achievementId := none }

/-- Reason text of the certificate bonus ledger entry. -/
def bhagCompletionReason : String := "BHAG Completion"

/-- Source category of the certificate bonus ledger entry. -/
def achievementSource : String := "achievement"

/-- The 500-XP bonus entry `CertificateService.generateBHAGCertificate`
pushes through the same local ledger and cookie
(`localXPService.awardXP(userId, 500, ..., certificate.id)`) after storing
the certificate. -/
def certificateRewardEntry (certId : String) : LocalXPTransaction :=
  { amount := 500, reason := bhagCompletionReason, source := achievementSource,
    goalId := none, achievementId := some certId }

/-- How many entries of the ledger carry this reason text. -/
def countByReason (s : LocalXPState) (r : String) : Nat :=
  (s.transactions.filter (fun t => t.reason = r)).length

/-- Steps 5 of the saga (the creation reward grant with its internal
try/catch): read the closure value `userProfile?.xp || 0`, apply the
optimistic `setUserProfileXP(currentXP + 100)`, then persist via
`localXPService.awardXP`; when persistence fails, the catch re-reads the
same closure value and calls `setUserProfileXP(currentXP - 100)` (the
rollback), leaving the ledger without the entry.  The profile XP and the
ledger share the XP cookie. -/
def sagaXPStep (profileXP : Option Int) (s : LocalXPState) (boardId : String)
    (persistOk : Bool) : Option Int × LocalXPState :=
  let currentXP := profileXP.getD 0
  let opt := setUserProfileXP profileXP s.cookie (currentXP + 100)
  if persistOk then
    (opt.1, awardXP { s with cookie := opt.2 } (creationRewardEntry boardId))
  else
    let rb := setUserProfileXP opt.1 opt.2 (currentXP - 100)
    (rb.1, { s with cookie := rb.2 })

/-- The conversation steps of a `ChatSession` (`currentStep` in
chatHistory.ts). -/
inductive SessionStep where
  | welcome
  | trelloConnect
  | fourWOneH
  | goalCreation
  | active
deriving Repr, DecidableEq

/-- Outcomes of the external collaborators during one saga run. -/
structure SagaEnv where
  /-- whether `createGoalBoard` (the chain of Trello calls) succeeds -/
  boardOk : Bool
  /-- the board id Trello assigns on success -/
  boardId : String
  /-- whether the artifact-generation request inside `generateGoalImage`
  succeeds -/
  imageFetchOk : Bool
  /-- the artifact URL returned on successful generation -/
  generatedUrl : String
  /-- whether the Trello calls of `addImageToBHAG` succeed -/
  attachOk : Bool
  /-- whether persisting the creation reward succeeds -/
  xpPersistOk : Bool
  /-- whether certificate generation succeeds -/
  certOk : Bool
  /-- the id the certificate service assigns to a generated certificate -/
  certId : String
deriving Repr, DecidableEq

/-- Result of one saga run: the session step reached, the board the session
references (when provisioning completed and the saga finished), the local
ledger state, the profile XP, and whether a certificate was issued. -/
structure SagaOutcome where
  sessionStep : SessionStep
  board : Option Board
  localXP : LocalXPState
  profileXP : Option Int
  certIssued : Bool
deriving Repr, DecidableEq

/-- `processComplete4W1H`: the whole saga runs inside one try block.  Plan
generation (`process4W1HAnswers`) never throws (it falls back to a mock
structure internally), so it is represented by its result
(`goalTitle`, `weeklyTasks`).  Board provisioning throws on failure, which
the outer catch turns into an error message: the session stays at
goal-creation, nothing later runs.  Artifact generation absorbs its own
failure into the placeholder URL, and the attachment step then runs with
whatever URL came back; a failure of the attachment step itself throws and
aborts the saga the same way board failure does.  The creation reward step
catches its own failure (rolling back the optimistic update), and the
session is then marked active.  Certificate issuance
(`generateBHAGCertificate`) stores the certificate and then pushes a 500-XP
bonus entry through the same local ledger and cookie; its failure is caught
with a soft warning, skipping both the certificate and the bonus entry. -/
def processComplete4W1H (env : SagaEnv) (goalTitle : String)
    (weeklyTasks : List WeeklyTask) (profileXP : Option Int) (s : LocalXPState) :
    SagaOutcome :=
  if env.boardOk = false then
    { sessionStep := .goalCreation, board := none, localXP := s,
      profileXP := profileXP, certIssued := false }
  else
    let board := createGoalBoard weeklyTasks
    let imageUrl := generateGoalImage env.imageFetchOk env.generatedUrl
    match addImageToBHAG board env.attachOk imageUrl (goalTitle ++ " Vision") with
    | .error _ =>
      { sessionStep := .goalCreation, board := none, localXP := s,
        profileXP := profileXP, certIssued := false }
    | .ok board1 =>
      let xp := sagaXPStep profileXP s env.boardId env.xpPersistOk
      let afterCert :=
        if env.certOk then awardXP xp.2 (certificateRewardEntry env.certId)
        else xp.2
      { sessionStep := .active, board := some board1, localXP := afterCert,
        profileXP := xp.1, certIssued := env.certOk }

/-- The cards of the BHAG (vision) list of a referenced board. -/
def bhagCardsOf : Option Board → List Card
  | none => []
  | some b => ((b.lists.find? (fun l => l.name = "BHAG")).map BoardList.cards).getD []

/-- The names of the lists of a referenced board. -/
def listNamesOf : Option Board → List String
  | none => []
  | some b => b.lists.map BoardList.name

/-- The names of the cards of the To Do list of a referenced board. -/
def toDoCardNamesOf : Option Board → List String
  | none => []
  | some b => (((b.lists.find? (fun l => l.name = "To Do")).map BoardList.cards).getD []).map Card.name

/-! ## Soulbound credential contract (ProofOfCommitmentNFT.sol)

Contract storage is modelled with association lists; a reverting call is an
`Except.error` carrying the revert reason, and (as on the EVM) an error
leaves the caller with the unchanged pre-call state. -/

/-- The revert reason of every blocked transfer. -/
def soulboundMsg : String := "Soulbound NFT: Cannot be transferred"

/-- The revert reason of a repeated mint. -/
def alreadyMintedMsg : String := "Already minted for this goal"

/-- The revert reason of the `onlyOwner` modifier. -/
def notOwnerMsg : String := "Ownable: caller is not the owner"

/-- The zero address. -/
def ZERO_ADDRESS : String := "0x0000000000000000000000000000000000000000"

/-- Storage of `ProofOfCommitmentNFT`: contract owner, the token id counter,
the `goalMinted` double mapping (as the set of (goalId, address) pairs set to
true), token ownership, the `goalIds` mapping and the token URIs. -/
structure NFTState where
  contractOwner : String
  tokenIdCounter : Nat
  goalMinted : List (String × String)
  owners : List (Nat × String)
  goalIds : List (Nat × String)
  tokenURIs : List (Nat × String)
deriving Repr, DecidableEq

/-- `mint(to, goalId, tokenURI)` with the `onlyOwner` modifier: revert unless
the caller is the contract owner; revert with `alreadyMintedMsg` when
`goalMinted[goalId][to]` is set; otherwise assign the current counter value
as token id, increment the counter, record owner / URI / goal id and set
`goalMinted[goalId][to]`.  The source parameter `to` is a reserved word
here and appears as `recip`. -/
def mint (s : NFTState) (caller recip goalId uri : String) : Except String NFTState :=
  if caller ≠ s.contractOwner then .error notOwnerMsg
  else if (goalId, recip) ∈ s.goalMinted then .error alreadyMintedMsg
  else
    .ok { s with
      tokenIdCounter := s.tokenIdCounter + 1,
      goalMinted := (goalId, recip) :: s.goalMinted,
      owners := (s.tokenIdCounter, recip) :: s.owners,
      goalIds := (s.tokenIdCounter, goalId) :: s.goalIds,
      tokenURIs := (s.tokenIdCounter, uri) :: s.tokenURIs }

/-- `transferFrom` override: reverts unconditionally. -/
def transferFrom (sender recipient : String) (tokenId : Nat) : Except String Unit :=
  .error soulboundMsg

/-- Three-argument `safeTransferFrom` override: reverts unconditionally. -/
def safeTransferFrom (sender recipient : String) (tokenId : Nat) : Except String Unit :=
  .error soulboundMsg

/-- Four-argument `safeTransferFrom` override (with calldata bytes): reverts
unconditionally. -/
def safeTransferFromWithData (sender recipient : String) (tokenId : Nat)
    (dat : List Nat) : Except String Unit :=
  .error soulboundMsg

/-- `_beforeTokenTransfer` override: the hook every internal token movement
goes through; allows the movement only when `from` is the zero address (the
mint path) and reverts otherwise. -/
def beforeTokenTransfer (sender recipient : String) (tokenId batchSize : Nat) :
    Except String Unit :=
  if sender = ZERO_ADDRESS then .ok () else .error soulboundMsg

/-! ## 4W1H dialogue state machine (handle4W1HResponse in ChatWorkspace.tsx) -/

/-- The six slot answers of the 4W1H framework (field names follow the
source; `whenAns` / `whereAns` stand for the source fields `when` / `where`,
which are reserved words here). -/
structure FourWOneHAnswers where
  what : Option String := none
  why : Option String := none
  whenAns : Option String := none
  whereAns : Option String := none
  who : Option String := none
  how : Option String := none
deriving Repr, DecidableEq

/-- Identifiers of the six slots, used for the recording trace. -/
inductive Slot where
  | what
  | why
  | whenSlot
  | whereSlot
  | who
  | how
deriving Repr, DecidableEq

/-- The canonical slot order the prompts follow. -/
def slotOrder : List Slot :=
  [Slot.what, Slot.why, Slot.whenSlot, Slot.whereSlot, Slot.who, Slot.how]

/-- The conversation state the component keeps: the current step of the
session, `currentQuestionIndex`, the partially filled answers, the ordered
trace of slot recordings, and how many times `processComplete4W1H` has been
invoked. -/
structure DialogueState where
  currentStep : SessionStep
  currentQuestionIndex : Nat
  answers : FourWOneHAnswers
  recorded : List Slot
  sagaInvocations : Nat
deriving Repr, DecidableEq

/-- `handle4W1HResponse`: dispatch on `currentQuestionIndex`; index 0..5
record what / why / when / where / who / how respectively and advance the
index; the sixth answer (index 5) additionally moves the session to
goal-creation and invokes the saga; any other index matches no branch and
leaves the state unchanged. -/
def handle4W1HResponse (st : DialogueState) (msg : String) : DialogueState :=
  if st.currentQuestionIndex = 0 then
    { st with
      answers := { st.answers with what := some msg },
      recorded := st.recorded ++ [Slot.what],
      currentQuestionIndex := 1 }
  else if st.currentQuestionIndex = 1 then
    { st with
      answers := { st.answers with why := some msg },
      recorded := st.recorded ++ [Slot.why],
      currentQuestionIndex := 2 }
  else if st.currentQuestionIndex = 2 then
    { st with
      answers := { st.answers with whenAns := some msg },
      recorded := st.recorded ++ [Slot.whenSlot],
      currentQuestionIndex := 3 }
  else if st.currentQuestionIndex = 3 then
    { st with
      answers := { st.answers with whereAns := some msg },
      recorded := st.recorded ++ [Slot.whereSlot],
      currentQuestionIndex := 4 }
  else if st.currentQuestionIndex = 4 then
    { st with
      answers := { st.answers with who := some msg },
      recorded := st.recorded ++ [Slot.who],
      currentQuestionIndex := 5 }
  else if st.currentQuestionIndex = 5 then
    { st with
      answers := { st.answers with how := some msg },
      recorded := st.recorded ++ [Slot.how],
      currentQuestionIndex := 6,
      currentStep := SessionStep.goalCreation,
      sagaInvocations := st.sagaInvocations + 1 }
  else st

/-- `handleSendMessage` as it affects the dialogue observables: only the
4W1H step routes into `handle4W1HResponse`; welcome / trello-connect
responses and the goal-creation / active handlers neither record slot
answers nor invoke the saga. -/
def handleSendMessage (st : DialogueState) (msg : String) : DialogueState :=
  match st.currentStep with
  | SessionStep.fourWOneH => handle4W1HResponse st msg
  | _ => st

/-- Process a whole run of user messages in order. -/
def runDialogue (st : DialogueState) (msgs : List String) : DialogueState :=
  msgs.foldl handleSendMessage st

/-- The state at the start of slot filling: 4W1H step, index 0, no answers,
no recordings, saga never invoked. -/
def initialDialogueState : DialogueState :=
  { currentStep := SessionStep.fourWOneH, currentQuestionIndex := 0,
    answers := {}, recorded := [], sagaInvocations := 0 }

/-- All six slot answers are present. -/
def sixRecorded (a : FourWOneHAnswers) : Prop :=
  a.what.isSome ∧ a.why.isSome ∧ a.whenAns.isSome ∧
  a.whereAns.isSome ∧ a.who.isSome ∧ a.how.isSome

instance (a : FourWOneHAnswers) : Decidable (sixRecorded a) := by
  unfold sixRecorded
  infer_instance

/-! ## Achievement store (GamificationService.unlockAchievement)

Firestore documents are modelled by in-memory lists; the XP cascade that a
fresh unlock triggers (`awardXP` writing an XP transaction and the stats
update) is summarized by the appended ledger pair and the unlocked counter —
the claim under study only depends on the early-return path, which performs
none of it. -/

/-- An achievement record: document id, owner, type key and reward. -/
structure Achievement where
  id : Nat
  userId : String
  type : String
  xpReward : Int
deriving Repr, DecidableEq

/-- The gamification store: achievement records, the next document id, the
XP transaction log and the unlocked counter of the user stats. -/
structure GamificationState where
  achievements : List Achievement
  nextId : Nat
  xpTransactions : List (String × Int)
  achievementsUnlocked : Nat
deriving Repr, DecidableEq

/-- `getUserAchievement`: the first stored achievement of this owner with
this type key. -/
def getUserAchievement (s : GamificationState) (userId atype : String) :
    Option Achievement :=
  s.achievements.find? (fun a => a.userId = userId ∧ a.type = atype)

/-- `unlockAchievement`: when a record of this (owner, type) already exists,
return its id and change nothing; otherwise create the record, award its XP
if positive, bump the unlocked counter and return the new id. -/
def unlockAchievement (s : GamificationState) (userId atype : String)
    (xpReward : Int) : GamificationState × Nat :=
  match getUserAchievement s userId atype with
  | some a => (s, a.id)
  | none =>
    let newA : Achievement :=
      { id := s.nextId, userId := userId, type := atype, xpReward := xpReward }
    let s1 := { s with achievements := s.achievements ++ [newA],
                       nextId := s.nextId + 1 }
    let s2 := if 0 < xpReward then
        { s1 with xpTransactions := s1.xpTransactions ++ [(userId, xpReward)] }
      else s1
    ({ s2 with achievementsUnlocked := s2.achievementsUnlocked + 1 }, newA.id)

/-- How many achievement records exist for this (owner, type). -/
def countAchievements (s : GamificationState) (userId atype : String) : Nat :=
  (s.achievements.filter (fun a => a.userId = userId ∧ a.type = atype)).length

/-! ## Wallet recovery (wallet.ts)

The bip39 / ethers primitives are an external library with a stated
contract (deterministic key derivation along a fixed path); they enter the
embedding as a function-valued parameter, applied by the repository code to
nothing but the mnemonic and the constant child index 0. -/

/-- The external derivation library as the repository code sees it. -/
structure EthersLib where
  validateMnemonic : String → Bool
  deriveAddress : String → Nat → String
  derivePrivateKey : String → Nat → String

/-- The record `recoverWalletFromMnemonic` returns. -/
structure WalletInfo where
  address : String
  mnemonic : String
  privateKey : String
deriving Repr, DecidableEq

/-- Error message of a failed recovery. -/
def recoverFailedMsg : String := "Failed to recover wallet from mnemonic"

/-- `recoverWalletFromMnemonic`: validate the phrase (any failure inside the
try block surfaces as the single catch-all error), then derive the first
account — child index 0 of the fixed hierarchical path — from the phrase and
nothing else. -/
def recoverWalletFromMnemonic (lib : EthersLib) (mnemonic : String) :
    Except String WalletInfo :=
  if lib.validateMnemonic mnemonic = false then .error recoverFailedMsg
  else .ok { address := lib.deriveAddress mnemonic 0,
             mnemonic := mnemonic,
             privateKey := lib.derivePrivateKey mnemonic 0 }

/-! ## Invariants and concrete sample data used by the theorems below -/

/-- The answer fields recorded so far match the progress index. -/
def slotsUpTo (st : DialogueState) : Prop :=
  (1 ≤ st.currentQuestionIndex → st.answers.what.isSome) ∧
  (2 ≤ st.currentQuestionIndex → st.answers.why.isSome) ∧
  (3 ≤ st.currentQuestionIndex → st.answers.whenAns.isSome) ∧
  (4 ≤ st.currentQuestionIndex → st.answers.whereAns.isSome) ∧
  (5 ≤ st.currentQuestionIndex → st.answers.who.isSome) ∧
  (6 ≤ st.currentQuestionIndex → st.answers.how.isSome)

/-- Inductive invariant of the dialogue: during slot filling the index is at
most 5; once the sixth answer arrives the session has left the 4W1H step
with index 6; the recording trace is exactly the slot order up to the index;
the saga has been invoked exactly once iff the index reached 6; and all
slots below the index are filled. -/
def DialogueInv (st : DialogueState) : Prop :=
  (st.currentStep = SessionStep.fourWOneH ∧ st.currentQuestionIndex ≤ 5 ∨
   st.currentStep ≠ SessionStep.fourWOneH ∧ st.currentQuestionIndex = 6) ∧
  st.recorded = slotOrder.take st.currentQuestionIndex ∧
  st.sagaInvocations = (if st.currentQuestionIndex = 6 then 1 else 0) ∧
  slotsUpTo st

/-- The saga environment of the amended artifact-failure scenario: board
provisioning and all later Trello calls succeed, artifact generation fails,
reward persistence succeeds. -/
def artifactFailEnv (bid gurl cid : String) (certOk : Bool) : SagaEnv :=
  { boardOk := true, boardId := bid, imageFetchOk := false,
    generatedUrl := gurl, attachOk := true, xpPersistOk := true,
    certOk := certOk, certId := cid }

/-- The four weekly task groups of the mock marathon plan. -/
def marathonWeeks : List WeeklyTask :=
  [ { weekNumber := 1, description := "Foundation and planning" },
    { weekNumber := 2, description := "Initial implementation" },
    { weekNumber := 3, description := "Deep work and refinement" },
    { weekNumber := 4, description := "Finalization and completion" } ]

/-- Title of the scenario goal. -/
def marathonTitle : String := "Run a marathon"

/-- A freshly deployed credential contract. -/
def sampleNFTState : NFTState :=
  { contractOwner := "deployer", tokenIdCounter := 0, goalMinted := [],
    owners := [], goalIds := [], tokenURIs := [] }

/-- The contract state after the first successful mint of goal1 to alice. -/
def sampleMintedState : NFTState :=
  { contractOwner := "deployer", tokenIdCounter := 1,
    goalMinted := [("goal1", "alice")], owners := [(0, "alice")],
    goalIds := [(0, "goal1")], tokenURIs := [(0, "uri1")] }

/-- A positive ledger entry used in the balance counterexample. -/
def cexEntryA : LocalXPTransaction :=
  { amount := 5, reason := "plus five", source := "milestone" }

/-- A negative ledger entry used in the balance counterexample. -/
def cexEntryB : LocalXPTransaction :=
  { amount := -10, reason := "minus ten", source := "milestone" }

/-- A creation-sized entry used in the balance witness. -/
def wEntryA : LocalXPTransaction :=
  { amount := 100, reason := "BHAG created", source := "milestone" }

/-- A small entry used in the balance witness. -/
def wEntryB : LocalXPTransaction :=
  { amount := 7, reason := "bonus", source := "achievement" }

/-- An empty gamification store. -/
def emptyGamificationState : GamificationState :=
  { achievements := [], nextId := 0, xpTransactions := [], achievementsUnlocked := 0 }

/-- A concrete instance of the external derivation library, used only to
instantiate the determinism theorem at a witness point. -/
def sampleEthersLib : EthersLib :=
  { validateMnemonic := fun _ => true,
    deriveAddress := fun m i => "addr:" ++ m ++ ":" ++ toString i,
    derivePrivateKey := fun m i => "key:" ++ m ++ ":" ++ toString i }

/-- A sample recovery phrase. -/
def sampleMnemonic : String := "legal winner thank year wave"

/-- The wallet the sample library derives from the sample phrase. -/
def sampleWallet : WalletInfo :=
  { address := "addr:legal winner thank year wave:0",
    mnemonic := "legal winner thank year wave",
    privateKey := "key:legal winner thank year wave:0" }

/-- Six user messages, one per slot prompt. -/
def sampleMessages : List String :=
  ["run 5k", "health", "six months", "home", "solo", "training plan"]

/-! ## Theorems -/

/-- The cookie read is never negative. -/
theorem getXPCookie_nonneg (c : Option Int) : 0 ≤ getXPCookie c := by
  cases c with
  | none => simp [getXPCookie]
  | some v => simp [getXPCookie]

/-- Claim C2, counterexample: on a fresh contract, the first mint of goal1 to
alice succeeds, and the repeated mint for the same (goal, address) is an
error — a revert with the message Already minted for this goal — not the
safe no-op the claim asserts. -/
theorem mint_repeat_cex :
    mint sampleNFTState "deployer" "alice" "goal1" "uri1"
      = Except.ok sampleMintedState ∧
    mint sampleMintedState "deployer" "alice" "goal1" "uri2"
      = Except.error alreadyMintedMsg :=
  ⟨rfl, rfl⟩

/-- Claim C2, amended: minting a credential for a (goal, address) pair
succeeds at most once — after any successful mint, a repeat attempt for the
same pair reverts with Already minted for this goal, and (a revert leaving
the pre-call state in force) has no side effects: no new token and no state
change. -/
theorem mint_at_most_once (s s1 : NFTState) (caller recip goalId uri uri2 : String)
    (h : mint s caller recip goalId uri = Except.ok s1) :
    mint s1 caller recip goalId uri2 = Except.error alreadyMintedMsg := by
  unfold mint at h ⊢
  by_cases h1 : caller ≠ s.contractOwner
  · rw [if_pos h1] at h
    exact absurd h (by simp)
  · rw [if_neg h1] at h
    by_cases h2 : (goalId, recip) ∈ s.goalMinted
    · rw [if_pos h2] at h
      exact absurd h (by simp)
    · rw [if_neg h2] at h
      injection h with h3
      subst h3
      rw [if_neg (by simpa using h1), if_pos (by simp)]

/-- Witness for the amended mint theorem at the sample contract. -/
theorem mint_at_most_once_witness :
    mint sampleNFTState "deployer" "alice" "goal1" "uri1"
      = Except.ok sampleMintedState ∧
    mint sampleMintedState "deployer" "alice" "goal1" "uri9"
      = Except.error alreadyMintedMsg :=
  ⟨rfl,
   mint_at_most_once sampleNFTState sampleMintedState "deployer" "alice"
     "goal1" "uri1" "uri9" rfl⟩

/-- Claim C3: every transfer entry point of the credential contract reverts
unconditionally — `transferFrom`, both `safeTransferFrom` overloads, and the
`_beforeTokenTransfer` hook whenever the sending address is non-zero; the
zero-address (mint) path is the only movement the hook lets through. -/
theorem transfers_always_revert (sender recipient : String)
    (tokenId batchSize : Nat) (dat : List Nat) :
    transferFrom sender recipient tokenId = Except.error soulboundMsg ∧
    safeTransferFrom sender recipient tokenId = Except.error soulboundMsg ∧
    safeTransferFromWithData sender recipient tokenId dat
      = Except.error soulboundMsg ∧
    (sender ≠ ZERO_ADDRESS →
      beforeTokenTransfer sender recipient tokenId batchSize
        = Except.error soulboundMsg) ∧
    beforeTokenTransfer ZERO_ADDRESS recipient tokenId batchSize
      = Except.ok () := by
  refine ⟨rfl, rfl, rfl, fun h => ?_, ?_⟩
  · simp [beforeTokenTransfer, h]
  · simp [beforeTokenTransfer]

/-- Witness for the transfer-revert theorem at concrete addresses. -/
theorem transfers_always_revert_witness :
    transferFrom "0xabc" "0xdef" 0 = Except.error soulboundMsg ∧
    safeTransferFrom "0xabc" "0xdef" 0 = Except.error soulboundMsg ∧
    safeTransferFromWithData "0xabc" "0xdef" 0 [1, 2]
      = Except.error soulboundMsg ∧
    beforeTokenTransfer "0xabc" "0xdef" 0 1 = Except.error soulboundMsg ∧
    beforeTokenTransfer ZERO_ADDRESS "0xdef" 0 1 = Except.ok () :=
  have h := transfers_always_revert "0xabc" "0xdef" 0 1 [1, 2]
  ⟨h.1, h.2.1, h.2.2.1, h.2.2.2.1 (by decide), h.2.2.2.2⟩

/-- Claim C7 (code bug): with a starting profile balance of 50, when the
persistence of the creation reward fails after the optimistic +100 update,
the rollback does not restore the pre-update balance 50 — it re-reads the
stale closure value 50, computes 50 - 100 and clamps, leaving both the
profile balance and the cookie at 0. -/
theorem creationReward_rollback_bug :
    sagaXPStep (some 50) { transactions := [], cookie := some 50 } "board1" false
      = (some 0, { transactions := [], cookie := some 0 }) := by
  decide

/-- Claim C9: wallet recovery is a pure function of the recovery phrase and
the fixed child index 0 of the hierarchical derivation path, so any two
successful recoveries from equal phrases yield equal public addresses. -/
theorem recoverWallet_deterministic (lib : EthersLib) (m1 m2 : String)
    (w1 w2 : WalletInfo) (hm : m1 = m2)
    (h1 : recoverWalletFromMnemonic lib m1 = Except.ok w1)
    (h2 : recoverWalletFromMnemonic lib m2 = Except.ok w2) :
    w1.address = w2.address := by
  subst hm
  rw [h1] at h2
  rw [Except.ok.inj h2]

/-- Witness for wallet-recovery determinism at the sample library. -/
theorem recoverWallet_deterministic_witness :
    recoverWalletFromMnemonic sampleEthersLib sampleMnemonic
      = Except.ok sampleWallet ∧
    sampleWallet.address = sampleWallet.address :=
  ⟨rfl,
   recoverWallet_deterministic sampleEthersLib sampleMnemonic sampleMnemonic
     sampleWallet sampleWallet rfl rfl rfl⟩

/-- One non-negative award moves the cookie balance up by exactly its
amount. -/
theorem cookieBalance_awardXP (s : LocalXPState) (t : LocalXPTransaction)
    (ht : 0 ≤ t.amount) :
    cookieBalance (awardXP s t) = cookieBalance s + t.amount := by
  have hg : 0 ≤ getXPCookie s.cookie := getXPCookie_nonneg s.cookie
  have hx : (0:Int) ≤ getXPCookie s.cookie + t.amount := by omega
  calc cookieBalance (awardXP s t)
      = max 0 (max 0 (getXPCookie s.cookie + t.amount)) := rfl
    _ = getXPCookie s.cookie + t.amount := by
        rw [max_eq_right hx, max_eq_right hx]
    _ = cookieBalance s + t.amount := rfl

/-- Folding non-negative awards adds the sum of their amounts to the cookie
balance. -/
theorem applyAwards_balance (ts : List LocalXPTransaction) :
    ∀ s : LocalXPState, (∀ t ∈ ts, 0 ≤ t.amount) →
      cookieBalance (applyAwards s ts)
        = cookieBalance s + (ts.map LocalXPTransaction.amount).sum := by
  induction ts with
  | nil => intro s _; simp [applyAwards]
  | cons t ts ih =>
    intro s h
    have ht : 0 ≤ t.amount := h t (by simp)
    have hstep : applyAwards s (t :: ts) = applyAwards (awardXP s t) ts := by
      simp [applyAwards]
    rw [hstep, ih (awardXP s t) (fun x hx => h x (by simp [hx])),
        cookieBalance_awardXP s t ht]
    simp
    omega

/-- Claim C4, counterexample: applying the signed entries +5, -10, +5 to the
fresh ledger leaves the reported balance at 5 while the sum of the entries
is 0, and applying the same entries in the order -10, +5, +5 (a
permutation) leaves it at 10 — the balance is neither the sum nor
order-independent, because every write clamps at zero. -/
theorem balance_sum_cex :
    cookieBalance (applyAwards initialLocalXPState [cexEntryA, cexEntryB, cexEntryA]) = 5 ∧
    (([cexEntryA, cexEntryB, cexEntryA]).map LocalXPTransaction.amount).sum = 0 ∧
    cookieBalance (applyAwards initialLocalXPState [cexEntryB, cexEntryA, cexEntryA]) = 10 ∧
    List.Perm [cexEntryA, cexEntryB, cexEntryA] [cexEntryB, cexEntryA, cexEntryA] := by
  refine ⟨by decide, by decide, by decide, ?_⟩
  decide

/-- Claim C4, amended: starting from the fresh ledger, for entries whose
amounts are all non-negative the final reported balance equals the sum of
the signed amounts, and any permutation of the entries yields that same
balance; with negative entries the balance is instead the zero-clamped left
fold, which the counterexample shows is order-dependent. -/
theorem balance_eq_sum_nonneg (ts us : List LocalXPTransaction)
    (hperm : List.Perm ts us) (h : ∀ t ∈ ts, 0 ≤ t.amount) :
    cookieBalance (applyAwards initialLocalXPState ts)
      = (ts.map LocalXPTransaction.amount).sum ∧
    cookieBalance (applyAwards initialLocalXPState us)
      = (ts.map LocalXPTransaction.amount).sum := by
  have hus : ∀ t ∈ us, 0 ≤ t.amount := fun t htu => h t (hperm.mem_iff.mpr htu)
  have h0 : cookieBalance initialLocalXPState = 0 := by
    simp [cookieBalance, initialLocalXPState, getXPCookie]
  have hsum : ((us.map LocalXPTransaction.amount).sum : Int)
      = (ts.map LocalXPTransaction.amount).sum :=
    ((hperm.map LocalXPTransaction.amount).sum_eq).symm
  constructor
  · rw [applyAwards_balance ts initialLocalXPState h, h0]
    omega
  · rw [applyAwards_balance us initialLocalXPState hus, h0, hsum]
    omega

/-- Witness for the amended balance theorem at two concrete non-negative
entries and a transposition of them. -/
theorem balance_eq_sum_nonneg_witness :
    cookieBalance (applyAwards initialLocalXPState [wEntryA, wEntryB])
      = (([wEntryA, wEntryB]).map LocalXPTransaction.amount).sum ∧
    cookieBalance (applyAwards initialLocalXPState [wEntryB, wEntryA])
      = (([wEntryA, wEntryB]).map LocalXPTransaction.amount).sum :=
  balance_eq_sum_nonneg [wEntryA, wEntryB] [wEntryB, wEntryA]
    (by decide) (by decide)

/-- Claim C8: on session start, when the cached balance strictly exceeds the
authoritative balance the cache wins — the cache value becomes the profile
balance and the cookie keeps it — and otherwise the authoritative balance is
kept as the profile and the cookie afterwards reads exactly the
authoritative balance. -/
theorem reconcile_session_start (profileXP cookie : Option Int) :
    (profileXP.getD 0 < getXPCookie cookie →
      reconcileOnSessionStart profileXP cookie
        = (some (getXPCookie cookie), cookie)) ∧
    (getXPCookie cookie ≤ profileXP.getD 0 →
      (reconcileOnSessionStart profileXP cookie).1 = profileXP ∧
      getXPCookie (reconcileOnSessionStart profileXP cookie).2
        = profileXP.getD 0) := by
  constructor
  · intro hlt
    simp [reconcileOnSessionStart, hlt]
  · intro hle
    have hnl : ¬ profileXP.getD 0 < getXPCookie cookie := not_lt.mpr hle
    have hc : 0 ≤ getXPCookie cookie := getXPCookie_nonneg cookie
    by_cases hz : profileXP.getD 0 = 0
    · have : getXPCookie cookie = 0 := le_antisymm (hz ▸ hle) hc
      simp [reconcileOnSessionStart, hnl, hz, this]
    · have hdb : 0 ≤ profileXP.getD 0 := le_trans hc hle
      have hpair : reconcileOnSessionStart profileXP cookie
          = (profileXP, updateXPCookie (profileXP.getD 0)) := by
        simp [reconcileOnSessionStart, hnl, hz]
      rw [hpair]
      refine ⟨rfl, ?_⟩
      show max 0 (max 0 (profileXP.getD 0)) = profileXP.getD 0
      rw [max_eq_right hdb, max_eq_right hdb]

/-- Witness for the reconciliation theorem: cache 7 over store 3 republishes
the cache; cache 3 under store 7 keeps the store and refreshes the cookie. -/
theorem reconcile_session_start_witness :
    reconcileOnSessionStart (some 3) (some 7) = (some 7, some 7) ∧
    ((reconcileOnSessionStart (some 7) (some 3)).1 = some 7 ∧
     getXPCookie (reconcileOnSessionStart (some 7) (some 3)).2 = 7) :=
  ⟨by
    have h := (reconcile_session_start (some 3) (some 7)).1 (by decide)
    simpa [getXPCookie] using h,
   (reconcile_session_start (some 7) (some 3)).2 (by decide)⟩

/-- Claim C10: every write to the locally cached balance clamps at zero, so
any sequence of cookie updates, cookie increments, optimistic profile
updates and absolute sets (rollbacks included), with amounts of any sign,
preserves non-negativity of both cached balances. -/
theorem xp_cache_never_negative (ops : List XPWriteOp) :
    ∀ s : XPCacheState, xpCacheNonneg s →
      xpCacheNonneg (ops.foldl applyXPWrite s) := by
  induction ops with
  | nil => intro s h; exact h
  | cons op ops ih =>
    intro s h
    obtain ⟨hp, hc⟩ := h
    have hupd : ∀ v : Int, nonnegOpt (updateXPCookie v) := by
      intro v
      simp [updateXPCookie, setXPCookie, nonnegOpt]
    have hstep : xpCacheNonneg (applyXPWrite s op) := by
      cases op with
      | update v =>
        exact ⟨hp, hupd v⟩
      | increment a =>
        refine ⟨hp, ?_⟩
        show nonnegOpt (setXPCookie (max 0 (getXPCookie s.cookie + a)))
        simp [setXPCookie, nonnegOpt]
      | optimistic a =>
        cases hpx : s.profileXP with
        | none =>
          have hred : applyXPWrite s (XPWriteOp.optimistic a)
              = { profileXP := none, cookie := s.cookie } := by
            simp [applyXPWrite, updateUserProfileXP, hpx]
          rw [hred]
          exact ⟨trivial, hc⟩
        | some x =>
          have hred : applyXPWrite s (XPWriteOp.optimistic a)
              = { profileXP := some (max 0 (x + a)),
                  cookie := updateXPCookie (max 0 (x + a)) } := by
            simp [applyXPWrite, updateUserProfileXP, hpx]
          rw [hred]
          exact ⟨le_max_left 0 (x + a), hupd _⟩
      | setAbs x =>
        cases hpx : s.profileXP with
        | none =>
          have hred : applyXPWrite s (XPWriteOp.setAbs x)
              = { profileXP := none, cookie := s.cookie } := by
            simp [applyXPWrite, setUserProfileXP, hpx]
          rw [hred]
          exact ⟨trivial, hc⟩
        | some y =>
          have hred : applyXPWrite s (XPWriteOp.setAbs x)
              = { profileXP := some (max 0 x),
                  cookie := updateXPCookie (max 0 x) } := by
            simp [applyXPWrite, setUserProfileXP, hpx]
          rw [hred]
          exact ⟨le_max_left 0 x, hupd _⟩
    have : (op :: ops).foldl applyXPWrite s = ops.foldl applyXPWrite (applyXPWrite s op) := by
      simp
    rw [this]
    exact ih (applyXPWrite s op) hstep

/-- Witness for cache non-negativity: an award, an optimistic update, a
deep negative rollback and a negative cookie write still leave both cached
balances non-negative. -/
theorem xp_cache_never_negative_witness :
    xpCacheNonneg
      ([XPWriteOp.increment 100, XPWriteOp.optimistic 100,
        XPWriteOp.setAbs (-100), XPWriteOp.update (-5)].foldl applyXPWrite
        { profileXP := some 0, cookie := none }) :=
  xp_cache_never_negative
    [XPWriteOp.increment 100, XPWriteOp.optimistic 100,
     XPWriteOp.setAbs (-100), XPWriteOp.update (-5)]
    { profileXP := some 0, cookie := none } ⟨le_refl 0, trivial⟩

/-- When no element of the first list satisfies the search predicate, the
search continues in the second list. -/
theorem find?_append_of_none {α : Type} (p : α → Bool) (l1 l2 : List α)
    (h : l1.find? p = none) : (l1 ++ l2).find? p = l2.find? p := by
  induction l1 with
  | nil => simp
  | cons a l ih =>
    by_cases hpa : p a = true
    · rw [List.find?_cons_of_pos _ hpa] at h
      exact absurd h (by simp)
    · rw [List.find?_cons_of_neg _ hpa] at h
      rw [List.cons_append, List.find?_cons_of_neg _ hpa]
      exact ih h

/-- Claim C6: achievement unlocking is idempotent — from a store holding no
record for this (owner, type), the first unlock creates exactly one record,
and a second unlock for the same (owner, type) returns the id of that record
and leaves the whole store (records, ids, XP ledger, counters) unchanged. -/
theorem unlockAchievement_idempotent (s : GamificationState) (u ty : String)
    (r1 r2 : Int) (h : countAchievements s u ty = 0) :
    countAchievements (unlockAchievement s u ty r1).1 u ty = 1 ∧
    unlockAchievement (unlockAchievement s u ty r1).1 u ty r2
      = ((unlockAchievement s u ty r1).1, (unlockAchievement s u ty r1).2) := by
  have hall : ∀ a ∈ s.achievements, ¬ (a.userId = u ∧ a.type = ty) := by
    intro a ha hcontra
    have hfil : s.achievements.filter (fun a => a.userId = u ∧ a.type = ty) = [] :=
      List.length_eq_zero.mp h
    have : a ∈ s.achievements.filter (fun a => a.userId = u ∧ a.type = ty) := by
      rw [List.mem_filter]
      exact ⟨ha, by simpa using hcontra⟩
    rw [hfil] at this
    simp at this
  have hnone : getUserAchievement s u ty = none := by
    rw [getUserAchievement, List.find?_eq_none]
    intro a ha
    simpa using hall a ha
  have hfilnil : s.achievements.filter (fun a => a.userId = u ∧ a.type = ty) = [] :=
    List.length_eq_zero.mp h
  set newA : Achievement := { id := s.nextId, userId := u, type := ty, xpReward := r1 }
    with hnewA
  have hpnew : (fun (a : Achievement) => decide (a.userId = u ∧ a.type = ty)) newA = true := by
    simp [hnewA]
  have hach : (unlockAchievement s u ty r1).1.achievements
      = s.achievements ++ [newA] := by
    rw [unlockAchievement, hnone]
    split_ifs <;> rfl
  have hid : (unlockAchievement s u ty r1).2 = newA.id := by
    rw [unlockAchievement, hnone]
  have hfind : getUserAchievement (unlockAchievement s u ty r1).1 u ty = some newA := by
    rw [getUserAchievement, hach, find?_append_of_none _ _ _ hnone]
    simp [hnewA]
  constructor
  · rw [countAchievements, hach, List.filter_append, hfilnil]
    simp [hpnew]
  · rw [unlockAchievement, hfind, hid]

/-- Witness for achievement idempotence starting from the empty store. -/
theorem unlockAchievement_idempotent_witness :
    countAchievements
      (unlockAchievement emptyGamificationState "u1" "first_goal" 200).1
      "u1" "first_goal" = 1 ∧
    unlockAchievement
      (unlockAchievement emptyGamificationState "u1" "first_goal" 200).1
      "u1" "first_goal" 200
      = ((unlockAchievement emptyGamificationState "u1" "first_goal" 200).1,
         (unlockAchievement emptyGamificationState "u1" "first_goal" 200).2) :=
  unlockAchievement_idempotent emptyGamificationState "u1" "first_goal" 200 200
    (by decide)

/-- The dialogue invariant holds at the start of slot filling. -/
theorem initialDialogueInv : DialogueInv initialDialogueState := by
  refine ⟨Or.inl ⟨rfl, by decide⟩, rfl, rfl, ?_, ?_, ?_, ?_, ?_, ?_⟩ <;>
    exact fun hcon => absurd hcon (by decide)

/-- One message preserves the dialogue invariant. -/
theorem dialogueInv_step (st : DialogueState) (msg : String)
    (h : DialogueInv st) : DialogueInv (handleSendMessage st msg) := by
  obtain ⟨hstep, hrec, hsaga, hs1, hs2, hs3, hs4, hs5, hs6⟩ := h
  rcases hstep with ⟨hs, hle⟩ | ⟨hs, h6⟩
  · have hdisp : handleSendMessage st msg = handle4W1HResponse st msg := by
      unfold handleSendMessage
      rw [hs]
    have hidx : st.currentQuestionIndex = 0 ∨ st.currentQuestionIndex = 1 ∨
        st.currentQuestionIndex = 2 ∨ st.currentQuestionIndex = 3 ∨
        st.currentQuestionIndex = 4 ∨ st.currentQuestionIndex = 5 := by omega
    rw [hdisp]
    rcases hidx with h0 | h1 | h2 | h3 | h4 | h5
    · have hred : handle4W1HResponse st msg
          = { st with
              answers := { st.answers with what := some msg },
              recorded := st.recorded ++ [Slot.what],
              currentQuestionIndex := 1 } := by
        simp [handle4W1HResponse, h0]
      rw [hred]
      refine ⟨Or.inl ⟨hs, by simp⟩, ?_, ?_, ?_, ?_, ?_, ?_, ?_, ?_⟩
      · rw [hrec, h0]
        rfl
      · rw [hsaga, h0]
        rfl
      · intro _
        rfl
      all_goals exact fun hcon => absurd hcon (by simp)
    · have hred : handle4W1HResponse st msg
          = { st with
              answers := { st.answers with why := some msg },
              recorded := st.recorded ++ [Slot.why],
              currentQuestionIndex := 2 } := by
        simp [handle4W1HResponse, h1]
      rw [hred]
      refine ⟨Or.inl ⟨hs, by simp⟩, ?_, ?_, ?_, ?_, ?_, ?_, ?_, ?_⟩
      · rw [hrec, h1]
        rfl
      · rw [hsaga, h1]
        rfl
      · exact fun _ => hs1 (by omega)
      · intro _
        rfl
      all_goals exact fun hcon => absurd hcon (by simp)
    · have hred : handle4W1HResponse st msg
          = { st with
              answers := { st.answers with whenAns := some msg },
              recorded := st.recorded ++ [Slot.whenSlot],
              currentQuestionIndex := 3 } := by
        simp [handle4W1HResponse, h2]
      rw [hred]
      refine ⟨Or.inl ⟨hs, by simp⟩, ?_, ?_, ?_, ?_, ?_, ?_, ?_, ?_⟩
      · rw [hrec, h2]
        rfl
      · rw [hsaga, h2]
        rfl
      · exact fun _ => hs1 (by omega)
      · exact fun _ => hs2 (by omega)
      · intro _
        rfl
      all_goals exact fun hcon => absurd hcon (by simp)
    · have hred : handle4W1HResponse st msg
          = { st with
              answers := { st.answers with whereAns := some msg },
              recorded := st.recorded ++ [Slot.whereSlot],
              currentQuestionIndex := 4 } := by
        simp [handle4W1HResponse, h3]
      rw [hred]
      refine ⟨Or.inl ⟨hs, by simp⟩, ?_, ?_, ?_, ?_, ?_, ?_, ?_, ?_⟩
      · rw [hrec, h3]
        rfl
      · rw [hsaga, h3]
        rfl
      · exact fun _ => hs1 (by omega)
      · exact fun _ => hs2 (by omega)
      · exact fun _ => hs3 (by omega)
      · intro _
        rfl
      all_goals exact fun hcon => absurd hcon (by simp)
    · have hred : handle4W1HResponse st msg
          = { st with
              answers := { st.answers with who := some msg },
              recorded := st.recorded ++ [Slot.who],
              currentQuestionIndex := 5 } := by
        simp [handle4W1HResponse, h4]
      rw [hred]
      refine ⟨Or.inl ⟨hs, by simp⟩, ?_, ?_, ?_, ?_, ?_, ?_, ?_, ?_⟩
      · rw [hrec, h4]
        rfl
      · rw [hsaga, h4]
        rfl
      · exact fun _ => hs1 (by omega)
      · exact fun _ => hs2 (by omega)
      · exact fun _ => hs3 (by omega)
      · exact fun _ => hs4 (by omega)
      · intro _
        rfl
      · exact fun hcon => absurd hcon (by simp)
    · have hred : handle4W1HResponse st msg
          = { st with
              answers := { st.answers with how := some msg },
              recorded := st.recorded ++ [Slot.how],
              currentQuestionIndex := 6,
              currentStep := SessionStep.goalCreation,
              sagaInvocations := st.sagaInvocations + 1 } := by
        simp [handle4W1HResponse, h5]
      rw [hred]
      refine ⟨Or.inr ⟨by simp, rfl⟩, ?_, ?_, ?_, ?_, ?_, ?_, ?_, ?_⟩
      · rw [hrec, h5]
        rfl
      · rw [hsaga, h5]
        rfl
      · exact fun _ => hs1 (by omega)
      · exact fun _ => hs2 (by omega)
      · exact fun _ => hs3 (by omega)
      · exact fun _ => hs4 (by omega)
      · exact fun _ => hs5 (by omega)
      · intro _
        rfl
  · have hdisp : handleSendMessage st msg = st := by
      unfold handleSendMessage
      cases hc : st.currentStep with
      | fourWOneH => exact absurd hc hs
      | welcome => rfl
      | trelloConnect => rfl
      | goalCreation => rfl
      | active => rfl
    rw [hdisp]
    exact ⟨Or.inr ⟨hs, h6⟩, hrec, hsaga, hs1, hs2, hs3, hs4, hs5, hs6⟩

/-- A whole run of messages preserves the dialogue invariant. -/
theorem dialogueInv_run (msgs : List String) :
    ∀ st : DialogueState, DialogueInv st → DialogueInv (runDialogue st msgs) := by
  induction msgs with
  | nil => intro st h; exact h
  | cons m ms ih =>
    intro st h
    have : runDialogue st (m :: ms) = runDialogue (handleSendMessage st m) ms := by
      simp [runDialogue]
    rw [this]
    exact ih (handleSendMessage st m) (dialogueInv_step st m h)

/-- Claim C5: in every dialogue run from the start of slot filling, the
trace of recorded slot answers is exactly the prefix what, why, when, where,
who, how of the canonical order, and whenever the materialization saga has
been invoked, all six answers were already recorded and the saga was invoked
exactly once. -/
theorem dialogue_order_and_saga_guard (msgs : List String) :
    (runDialogue initialDialogueState msgs).recorded
      = slotOrder.take (runDialogue initialDialogueState msgs).currentQuestionIndex ∧
    ((runDialogue initialDialogueState msgs).sagaInvocations ≠ 0 →
      sixRecorded (runDialogue initialDialogueState msgs).answers ∧
      (runDialogue initialDialogueState msgs).sagaInvocations = 1) := by
  have hinv := dialogueInv_run msgs initialDialogueState initialDialogueInv
  obtain ⟨hstep, hrec, hsaga, hs1, hs2, hs3, hs4, hs5, hs6⟩ := hinv
  refine ⟨hrec, fun hne => ?_⟩
  by_cases h6 : (runDialogue initialDialogueState msgs).currentQuestionIndex = 6
  · refine ⟨⟨hs1 (by omega), hs2 (by omega), hs3 (by omega), hs4 (by omega),
      hs5 (by omega), hs6 (by omega)⟩, ?_⟩
    rw [hsaga, if_pos h6]
  · rw [hsaga, if_neg h6] at hne
    exact absurd rfl hne

/-- Witness for the dialogue theorem at a six-message run. -/
theorem dialogue_order_and_saga_guard_witness :
    (runDialogue initialDialogueState sampleMessages).recorded
      = slotOrder.take
          (runDialogue initialDialogueState sampleMessages).currentQuestionIndex ∧
    (sixRecorded (runDialogue initialDialogueState sampleMessages).answers ∧
     (runDialogue initialDialogueState sampleMessages).sagaInvocations = 1) :=
  ⟨(dialogue_order_and_saga_guard sampleMessages).1,
   (dialogue_order_and_saga_guard sampleMessages).2 (by decide)⟩

/-- Claim C1, counterexample: in the spec scenario (marathon slots, board
provisioning succeeding, artifact generation failing, everything else
succeeding) the run does complete with an active session and four lists, and
the ledger ends with the creation-reward entry followed by the certificate
bonus entry — exactly one creation-reward entry — but a Vision card IS
attached to the BHAG list, carrying the fallback placeholder artifact,
contradicting the claim that no vision card is attached. -/
theorem saga_artifact_failure_cex :
    (processComplete4W1H (artifactFailEnv "board1" "unused" "cert1" true)
      marathonTitle marathonWeeks (some 0)
      { transactions := [], cookie := some 0 }).sessionStep
        = SessionStep.active ∧
    (processComplete4W1H (artifactFailEnv "board1" "unused" "cert1" true)
      marathonTitle marathonWeeks (some 0)
      { transactions := [], cookie := some 0 }).localXP.transactions
        = [creationRewardEntry "board1", certificateRewardEntry "cert1"] ∧
    countByReason (processComplete4W1H (artifactFailEnv "board1" "unused" "cert1" true)
      marathonTitle marathonWeeks (some 0)
      { transactions := [], cookie := some 0 }).localXP bhagCreatedReason = 1 ∧
    bhagCardsOf (processComplete4W1H (artifactFailEnv "board1" "unused" "cert1" true)
      marathonTitle marathonWeeks (some 0)
      { transactions := [], cookie := some 0 }).board
        = [ { name := "Run a marathon Vision", desc := visionCardDesc,
              attachments := [placeholderImageUrl], checklist := [] } ] :=
  ⟨rfl, rfl, rfl, rfl⟩

/-- Claim C1, amended: when board provisioning and the later Trello calls
succeed and only artifact generation fails, the saga still completes — the
session reaches active, the board carries the four lists To Do / Doing /
Done / BHAG with one Week card per weekly task group, and exactly one
creation-reward ledger entry exists (followed, when certificate issuance
also succeeds, by the separate 500-XP certificate bonus entry) — but a
Vision card IS attached, carrying the fallback placeholder artifact:
generation failure is absorbed into a placeholder URL rather than skipping
the attachment (only a failure of the attachment call itself, or of board
provisioning, aborts the saga with the session left at goal-creation). -/
theorem saga_artifact_failure_amended (title bid gurl cid : String)
    (weeks : List WeeklyTask) (b : Int) (c : Option Int) (certOk : Bool) :
    (processComplete4W1H (artifactFailEnv bid gurl cid certOk) title weeks (some b)
      { transactions := [], cookie := c }).sessionStep = SessionStep.active ∧
    listNamesOf (processComplete4W1H (artifactFailEnv bid gurl cid certOk) title
      weeks (some b) { transactions := [], cookie := c }).board
        = ["To Do", "Doing", "Done", "BHAG"] ∧
    toDoCardNamesOf (processComplete4W1H (artifactFailEnv bid gurl cid certOk) title
      weeks (some b) { transactions := [], cookie := c }).board
        = weeks.map (fun w => "Week " ++ toString w.weekNumber) ∧
    bhagCardsOf (processComplete4W1H (artifactFailEnv bid gurl cid certOk) title
      weeks (some b) { transactions := [], cookie := c }).board
        = [ { name := title ++ " Vision", desc := visionCardDesc,
              attachments := [placeholderImageUrl], checklist := [] } ] ∧
    (processComplete4W1H (artifactFailEnv bid gurl cid certOk) title weeks (some b)
      { transactions := [], cookie := c }).localXP.transactions
        = [creationRewardEntry bid]
            ++ (if certOk then [certificateRewardEntry cid] else []) ∧
    countByReason (processComplete4W1H (artifactFailEnv bid gurl cid certOk) title
      weeks (some b) { transactions := [], cookie := c }).localXP
      bhagCreatedReason = 1 := by
  have hred : processComplete4W1H (artifactFailEnv bid gurl cid certOk) title weeks
      (some b) { transactions := [], cookie := c }
      = { sessionStep := SessionStep.active,
          board := some
            { lists :=
                [ { name := "To Do", cards := weeks.map weekCard },
                  { name := "Doing", cards := [] },
                  { name := "Done", cards := [] },
                  { name := "BHAG", cards :=
                      [ { name := title ++ " Vision", desc := visionCardDesc,
                          attachments := [placeholderImageUrl],
                          checklist := [] } ] } ] },
          localXP :=
            (if certOk then
              awardXP (sagaXPStep (some b)
                { transactions := [], cookie := c } bid true).2
                (certificateRewardEntry cid)
            else (sagaXPStep (some b)
              { transactions := [], cookie := c } bid true).2),
          profileXP := (sagaXPStep (some b)
            { transactions := [], cookie := c } bid true).1,
          certIssued := certOk } := by
    simp [processComplete4W1H, artifactFailEnv, generateGoalImage,
      addImageToBHAG, createGoalBoard, List.find?]
  rw [hred]
  refine ⟨rfl, rfl, ?_, ?_, ?_, ?_⟩
  · simp [toDoCardNamesOf, List.find?, weekCard]
  · simp [bhagCardsOf, List.find?]
  · cases certOk with
    | false => simp [sagaXPStep, awardXP, setUserProfileXP]
    | true => simp [sagaXPStep, awardXP, setUserProfileXP]
  · cases certOk with
    | false =>
      simp [sagaXPStep, awardXP, setUserProfileXP, countByReason,
        creationRewardEntry, certificateRewardEntry, bhagCreatedReason,
        bhagCompletionReason]
    | true =>
      simp [sagaXPStep, awardXP, setUserProfileXP, countByReason,
        creationRewardEntry, certificateRewardEntry, bhagCreatedReason,
        bhagCompletionReason]
